import Mathlib

/-!
Shallow embedding of the workspace editing service
(src/vs/workbench/services/workspace/node/workspaceEditingService.ts).

Locations (URIs) are modelled as strings together with an abstract
normalization function compKey standing for getComparisonKey from
vs/base/common/resources; isEqual of two locations is equality of their
comparison keys.  External collaborators (window service, workspaces
service, file service, storage service, configuration service, dialogs)
are modelled as fields of an environment record holding the responses
they would give; every method of the service becomes a pure function
from that environment to a result paired with the list of observable
effects it performs, in order.
-/

namespace WorkspaceEditing

abbrev URI := String

/-- Comparison-key equality of two locations, standing for isEqual from
vs/base/common/resources: two locations are equal when their normalized
comparison keys coincide. -/
def isEqualKey (compKey : URI → URI) (a b : URI) : Bool :=
  compKey a == compKey b

/-- Character-list test that the second list starts the first. -/
def strStartsWith : List Char → List Char → Bool
  | _, [] => true
  | [], _ :: _ => false
  | c :: cs, d :: ds => c == d && strStartsWith cs ds

/-- Equal-or-parent test on locations, standing for isEqualOrParent from
vs/base/common/resources: the child location is equal to the parent or
lives below it, compared on normalized comparison keys. -/
def isEqualOrParentKey (compKey : URI → URI) (child parent : URI) : Bool :=
  strStartsWith (compKey child).data (compKey parent).data

structure WorkspaceFolder where
  uri : URI
  name : String := ""
deriving Repr, DecidableEq

/-- The workspace of the workspace context service: an identifier, the
list of root folders and, when a workspace file backs the session, its
configuration location. -/
structure Workspace where
  id : String
  folders : List WorkspaceFolder
  configuration : Option URI
deriving Repr, DecidableEq

structure WorkspaceIdentifier where
  id : String
  configPath : URI
deriving Repr, DecidableEq

structure IWorkspaceFolderCreationData where
  uri : URI
  name : Option String := none
deriving Repr, DecidableEq

inductive WorkbenchState where
  | EMPTY
  | FOLDER
  | WORKSPACE
deriving Repr, DecidableEq

/-- State derivation of the workspace context service: a configuration
file means WORKSPACE, exactly one folder means FOLDER, anything else is
EMPTY. -/
def getWorkbenchState (w : Workspace) : WorkbenchState :=
  match w.configuration with
  | some _ => WorkbenchState.WORKSPACE
  | none => if w.folders.length = 1 then WorkbenchState.FOLDER else WorkbenchState.EMPTY

/-- getCurrentWorkspaceIdentifier: the identifier of the active workspace,
present only when a configuration file backs the session. -/
def getCurrentWorkspaceIdentifier (w : Workspace) : Option WorkspaceIdentifier :=
  match w.configuration with
  | some cfg => some { id := w.id, configPath := cfg }
  | none => none

inductive ShutdownReason where
  | CLOSE
  | QUIT
  | RELOAD
  | LOAD
deriving Repr, DecidableEq

inductive Platform where
  | windows
  | linux
  | mac
deriving Repr, DecidableEq

inductive ConfirmResult where
  | SAVE
  | DONT_SAVE
  | CANCEL
deriving Repr, DecidableEq

inductive ConfigurationScope where
  | APPLICATION
  | MACHINE
  | WINDOW
  | RESOURCE
deriving Repr, DecidableEq

structure IConfigurationPropertySchema where
  scope : Option ConfigurationScope
deriving Repr, DecidableEq

abbrev ConfigValue := Option String

inductive JSONEditingErrorCode where
  | ERROR_INVALID_FILE
  | ERROR_FILE_DIRTY
deriving Repr, DecidableEq

/-- Errors of the embedded operations.  nullRejection stands for the
literal reject with null, testModeError for the refusal to enter a
workspace under a test harness, jsonEditing for typed configuration
editing failures, genericError for any other opaque failure of a
collaborator. -/
inductive Err where
  | nullRejection
  | testModeError
  | jsonEditing (code : JSONEditingErrorCode) (message : String)
  | genericError (message : String)
deriving Repr, DecidableEq

/-- Observable effects performed against the external collaborators, in
the order the service issues them. -/
inductive Event where
  | showMessageBox
  | readContent (path : URI)
  | createFile (path : URI) (content : String)
  | createUntitledWorkspace (folders : List IWorkspaceFolderCreationData)
  | stopExtensionHost
  | startExtensionHost
  | reloadWindow
  | enterWorkspaceHost (path : URI)
  | migrateStorage
  | writeSettings (path : URI) (settings : List (String × ConfigValue))
  | initBackup (path : URI)
  | initConfig
  | ctxUpdateFolders (toAdd : List IWorkspaceFolderCreationData) (toDelete : List URI) (index : Option Nat)
  | ctxAddFolders (toAdd : List IWorkspaceFolderCreationData) (index : Option Nat)
  | ctxRemoveFolders (toRemove : List URI)
  | promptOpenConfigInvalid
  | promptOpenConfigDirty
  | notifyError (e : Err)
  | showDialog
  | pickPath
  | deleteUntitledWorkspace (w : WorkspaceIdentifier)
  | addRecentlyOpened (w : WorkspaceIdentifier)
deriving Repr, DecidableEq

structure EnterResult where
  workspace : WorkspaceIdentifier
  backupPath : URI
deriving Repr, DecidableEq

structure WindowInfo where
  workspace : Option WorkspaceIdentifier
deriving Repr, DecidableEq

/-- The environment: the state of the session together with the
responses of every external collaborator the service consults. -/
structure Env where
  compKey : URI → URI
  untitledWorkspacesHome : URI
  extensionTestsLocationURI : Option URI
  remoteAuthority : Option String
  platform : Platform
  windowCount : Nat
  windows : List WindowInfo
  currentWorkspace : Workspace
  dialogChoice : Nat
  pickedPath : Option URI
  getWorkspaceIdentifierFor : URI → WorkspaceIdentifier
  createUntitledWorkspaceIdFor : List IWorkspaceFolderCreationData → WorkspaceIdentifier
  hostEnterWorkspace : URI → Except Err (Option EnterResult)
  fileRead : URI → Except Err String
  rewriteWorkspaceFileForNewLocation : String → URI → URI → String
  fileCreateResult : Except Err Unit
  migrateStorageResult : Except Err Unit
  jsonWriteResult : Except Err Unit
  backupIsFileBackupService : Bool
  configServiceInitResult : Except Err Unit
  configKeysWorkspace : List String
  configProperties : String → Option IConfigurationPropertySchema
  inspectWorkspace : String → ConfigValue
  ctxUpdateFoldersResult : Except Err Unit
  ctxAddFoldersResult : Except Err Unit
  ctxRemoveFoldersResult : Except Err Unit

/-- First-occurrence de-duplication by key, standing for distinct from
vs/base/common/arrays: an element is kept exactly when its key has not
been seen before. -/
def distinctAux {α κ : Type} [DecidableEq κ] (keyFn : α → κ) :
    List α → List κ → List α
  | [], _ => []
  | x :: rest, seen =>
    if keyFn x ∈ seen then distinctAux keyFn rest seen
    else x :: distinctAux keyFn rest (keyFn x :: seen)

def distinct {α κ : Type} [DecidableEq κ] (keyFn : α → κ) (xs : List α) : List α :=
  distinctAux keyFn xs []

/-- Whether an open window holds a workspace at the given location. -/
def windowMatches (compKey : URI → URI) (path : URI) (w : WindowInfo) : Bool :=
  match w.workspace with
  | some cfg => isEqualKey compKey cfg.configPath path
  | none => false

/-- isValidTargetWorkspacePath: a target is rejected, after a message
box, when some live window already has a workspace open at that
configuration location. -/
def isValidTargetWorkspacePath (env : Env) (path : URI) : Bool × List Event :=
  if env.windows.any (windowMatches env.compKey path) then
    (false, [Event.showMessageBox])
  else
    (true, [])

/-- saveWorkspaceAs: no work when the target equals the current
configuration location, otherwise read the current file, rewrite its
contents for the new location and write them to the target with
overwrite. -/
def saveWorkspaceAs (env : Env) (workspace : WorkspaceIdentifier)
    (targetConfigPathURI : URI) : Except Err Unit × List Event :=
  let configPathURI := workspace.configPath
  if isEqualKey env.compKey configPathURI targetConfigPathURI then
    (Except.ok (), [])
  else
    match env.fileRead configPathURI with
    | Except.error e => (Except.error e, [Event.readContent configPathURI])
    | Except.ok raw =>
      let newRaw := env.rewriteWorkspaceFileForNewLocation raw configPathURI targetConfigPathURI
      match env.fileCreateResult with
      | Except.error e =>
        (Except.error e, [Event.readContent configPathURI, Event.createFile targetConfigPathURI newRaw])
      | Except.ok _ =>
        (Except.ok (), [Event.readContent configPathURI, Event.createFile targetConfigPathURI newRaw])

/-- The settings filter of the automatic migration path: keep a setting
exactly when its declared scope is the window scope. -/
def windowScopeFilter (s : IConfigurationPropertySchema) : Bool :=
  s.scope == some ConfigurationScope.WINDOW

/-- One key of the copy loop of doCopyWorkspaceSettings: skipped when
the key has no declared property or when the filter refuses it,
otherwise paired with its workspace-effective value. -/
def copyEntry (env : Env) (filter : Option (IConfigurationPropertySchema → Bool))
    (key : String) : Option (String × ConfigValue) :=
  match env.configProperties key with
  | none => none
  | some p =>
    match filter with
    | some f => if f p then some (key, env.inspectWorkspace key) else none
    | none => some (key, env.inspectWorkspace key)

/-- The settings block doCopyWorkspaceSettings assembles from the
workspace-effective configuration keys. -/
def copiedWorkspaceSettings (env : Env)
    (filter : Option (IConfigurationPropertySchema → Bool)) :
    List (String × ConfigValue) :=
  env.configKeysWorkspace.filterMap (copyEntry env filter)

/-- doCopyWorkspaceSettings: build the settings block and write it under
the settings key of the target workspace file. -/
def doCopyWorkspaceSettings (env : Env) (toWorkspace : WorkspaceIdentifier)
    (filter : Option (IConfigurationPropertySchema → Bool)) :
    Except Err Unit × List Event :=
  (env.jsonWriteResult,
    [Event.writeSettings toWorkspace.configPath (copiedWorkspaceSettings env filter)])

/-- migrateWorkspaceSettings: the automatic migration copy, filtered to
window-scoped settings. -/
def migrateWorkspaceSettings (env : Env) (toWorkspace : WorkspaceIdentifier) :
    Except Err Unit × List Event :=
  doCopyWorkspaceSettings env toWorkspace (some windowScopeFilter)

/-- copyWorkspaceSettings: the unfiltered standalone copy operation. -/
def copyWorkspaceSettings (env : Env) (toWorkspace : WorkspaceIdentifier) :
    Except Err Unit × List Event :=
  doCopyWorkspaceSettings env toWorkspace none

/-- migrate: storage migration first, then settings migration only when
the previous workbench state is FOLDER. -/
def migrate (env : Env) (toWorkspace : WorkspaceIdentifier) :
    Except Err Unit × List Event :=
  match env.migrateStorageResult with
  | Except.error e => (Except.error e, [Event.migrateStorage])
  | Except.ok _ =>
    if getWorkbenchState env.currentWorkspace = WorkbenchState.FOLDER then
      let r := migrateWorkspaceSettings env toWorkspace
      (r.fst, Event.migrateStorage :: r.snd)
    else
      (Except.ok (), [Event.migrateStorage])

/-- The effects of startExtensionHost of enterWorkspace: a window reload
first when a remote authority is configured, then the extension host
start. -/
def startExtensionHostEvents (env : Env) : List Event :=
  (if env.remoteAuthority.isSome then [Event.reloadWindow] else []) ++ [Event.startExtensionHost]

/-- enterWorkspace: refuse under a test harness; otherwise stop the
extension host, ask the window host to enter the identifier, run
migration, backup and configuration reinitialization when the host
accepts, and on any failure after the stop restart the extension host
once and propagate the original error. -/
def enterWorkspace (env : Env) (path : URI) : Except Err Unit × List Event :=
  if env.extensionTestsLocationURI.isSome then
    (Except.error Err.testModeError, [])
  else
    match env.hostEnterWorkspace path with
    | Except.error e =>
      (Except.error e,
        [Event.stopExtensionHost, Event.enterWorkspaceHost path] ++ startExtensionHostEvents env)
    | Except.ok none =>
      (Except.ok (), [Event.stopExtensionHost, Event.enterWorkspaceHost path])
    | Except.ok (some result) =>
      match migrate env result.workspace with
      | (Except.error e, mtrace) =>
        (Except.error e,
          [Event.stopExtensionHost, Event.enterWorkspaceHost path] ++ mtrace ++
            startExtensionHostEvents env)
      | (Except.ok _, mtrace) =>
        let backupTrace :=
          if env.backupIsFileBackupService then [Event.initBackup result.backupPath] else []
        match env.configServiceInitResult with
        | Except.error e =>
          (Except.error e,
            [Event.stopExtensionHost, Event.enterWorkspaceHost path] ++ mtrace ++
              backupTrace ++ [Event.initConfig] ++ startExtensionHostEvents env)
        | Except.ok _ =>
          (Except.ok (),
            [Event.stopExtensionHost, Event.enterWorkspaceHost path] ++ mtrace ++
              backupTrace ++ [Event.initConfig] ++ startExtensionHostEvents env)

/-- Modelled from the spec: the folder list stored by the external
createUntitledWorkspace operation (vs/platform/workspaces, not under
src), which contains exactly the requested folders de-duplicated by
normalized comparison key in first-occurrence order. -/
def createUntitledWorkspaceFolders (compKey : URI → URI)
    (folders : List IWorkspaceFolderCreationData) : List IWorkspaceFolderCreationData :=
  distinct (fun f => compKey f.uri) folders

/-- createAndEnterWorkspace.  NOTE kept faithful to the source: on line
245 the validity check is an async method called without await, so the
condition tests the promise object, which is always truthy, and the
rejection branch is unreachable; the check still runs for its side
effect (the message box). -/
def createAndEnterWorkspace (env : Env) (folders : List IWorkspaceFolderCreationData)
    (path : Option URI) : Except Err Unit × List Event :=
  let checkTrace : List Event :=
    match path with
    | some p => (isValidTargetWorkspacePath env p).snd
    | none => []
  let untitledWorkspace := env.createUntitledWorkspaceIdFor folders
  let createEvent := Event.createUntitledWorkspace (createUntitledWorkspaceFolders env.compKey folders)
  match path with
  | some p =>
    let s := saveWorkspaceAs env untitledWorkspace p
    match s.fst with
    | Except.error e => (Except.error e, checkTrace ++ [createEvent] ++ s.snd)
    | Except.ok _ =>
      let r := enterWorkspace env p
      (r.fst, checkTrace ++ [createEvent] ++ s.snd ++ r.snd)
  | none =>
    let r := enterWorkspace env untitledWorkspace.configPath
    (r.fst, [createEvent] ++ r.snd)

/-- saveAndEnterWorkspace.  NOTE kept faithful to the source: on line
259 the validity check is an async method called without await, so the
negation of the promise object is always false and the rejection branch
is unreachable; the check still runs for its side effect. -/
def saveAndEnterWorkspace (env : Env) (path : URI) : Except Err Unit × List Event :=
  let checkTrace := (isValidTargetWorkspacePath env path).snd
  match getCurrentWorkspaceIdentifier env.currentWorkspace with
  | none => (Except.error Err.nullRejection, checkTrace)
  | some workspaceIdentifier =>
    let s := saveWorkspaceAs env workspaceIdentifier path
    match s.fst with
    | Except.error e => (Except.error e, checkTrace ++ s.snd)
    | Except.ok _ =>
      let r := enterWorkspace env path
      (r.fst, checkTrace ++ s.snd ++ r.snd)

/-- handleWorkspaceConfigurationEditingError: the two typed editing
failures get a recovery prompt, every other failure a generic error
notification; in all cases the operation resolves. -/
def handleWorkspaceConfigurationEditingError (error : Err) : Except Err Unit × List Event :=
  match error with
  | Err.jsonEditing JSONEditingErrorCode.ERROR_INVALID_FILE _ =>
    (Except.ok (), [Event.promptOpenConfigInvalid])
  | Err.jsonEditing JSONEditingErrorCode.ERROR_FILE_DIRTY _ =>
    (Except.ok (), [Event.promptOpenConfigDirty])
  | e => (Except.ok (), [Event.notifyError e])

/-- doUpdateFolders: delegate the combined edit to the workspace
context service; on failure reject with the original error when the
caller opted out of notification, otherwise classify the error. -/
def doUpdateFolders (env : Env) (foldersToAdd : List IWorkspaceFolderCreationData)
    (foldersToDelete : List URI) (index : Option Nat) (donotNotifyError : Bool) :
    Except Err Unit × List Event :=
  match env.ctxUpdateFoldersResult with
  | Except.ok _ => (Except.ok (), [Event.ctxUpdateFolders foldersToAdd foldersToDelete index])
  | Except.error e =>
    if donotNotifyError then
      (Except.error e, [Event.ctxUpdateFolders foldersToAdd foldersToDelete index])
    else
      let h := handleWorkspaceConfigurationEditingError e
      (h.fst, Event.ctxUpdateFolders foldersToAdd foldersToDelete index :: h.snd)

/-- The candidate folder list of the add path: current folders as bare
locations with the additions spliced in at the index (default the end),
de-duplicated by comparison key keeping first occurrences. -/
def addCandidateFolders (compKey : URI → URI) (current : List IWorkspaceFolderCreationData)
    (index : Option Nat) (foldersToAdd : List IWorkspaceFolderCreationData) :
    List IWorkspaceFolderCreationData :=
  let idx := match index with | some i => i | none => current.length
  distinct (fun f => compKey f.uri) (current.take idx ++ foldersToAdd ++ current.drop idx)

/-- doAddFolders: outside WORKSPACE state, build the candidate list and
either do nothing when the state would not change or create and enter a
workspace with it; in WORKSPACE state delegate to the context service
and classify failures unless the caller opted out. -/
def doAddFolders (env : Env) (foldersToAdd : List IWorkspaceFolderCreationData)
    (index : Option Nat) (donotNotifyError : Bool) : Except Err Unit × List Event :=
  let state := getWorkbenchState env.currentWorkspace
  if state ≠ WorkbenchState.WORKSPACE then
    let newWorkspaceFolders :=
      addCandidateFolders env.compKey
        (env.currentWorkspace.folders.map (fun folder => { uri := folder.uri }))
        index foldersToAdd
    if (state = WorkbenchState.EMPTY ∧ newWorkspaceFolders.length = 0) ∨
        (state = WorkbenchState.FOLDER ∧ newWorkspaceFolders.length = 1) then
      (Except.ok (), [])
    else
      createAndEnterWorkspace env newWorkspaceFolders none
  else
    match env.ctxAddFoldersResult with
    | Except.ok _ => (Except.ok (), [Event.ctxAddFolders foldersToAdd index])
    | Except.error e =>
      if donotNotifyError then
        (Except.error e, [Event.ctxAddFolders foldersToAdd index])
      else
        let h := handleWorkspaceConfigurationEditingError e
        (h.fst, Event.ctxAddFolders foldersToAdd index :: h.snd)

def addFolders (env : Env) (foldersToAdd : List IWorkspaceFolderCreationData)
    (donotNotifyError : Bool) : Except Err Unit × List Event :=
  doAddFolders env foldersToAdd none donotNotifyError

/-- includesSingleFolderWorkspace: in FOLDER state, whether the given
locations include the sole opened folder. -/
def includesSingleFolderWorkspace (env : Env) (folders : List URI) : Bool :=
  if getWorkbenchState env.currentWorkspace = WorkbenchState.FOLDER then
    match env.currentWorkspace.folders with
    | workspaceFolder :: _ =>
      folders.any (fun folder => isEqualKey env.compKey folder workspaceFolder.uri)
    | [] => false
  else false

/-- removeFolders: removing the sole folder of a FOLDER session creates
and enters an empty workspace; otherwise delegate the removal and
classify failures unless the caller opted out. -/
def removeFolders (env : Env) (foldersToRemove : List URI) (donotNotifyError : Bool) :
    Except Err Unit × List Event :=
  if includesSingleFolderWorkspace env foldersToRemove then
    createAndEnterWorkspace env [] none
  else
    match env.ctxRemoveFoldersResult with
    | Except.ok _ => (Except.ok (), [Event.ctxRemoveFolders foldersToRemove])
    | Except.error e =>
      if donotNotifyError then
        (Except.error e, [Event.ctxRemoveFolders foldersToRemove])
      else
        let h := handleWorkspaceConfigurationEditingError e
        (h.fst, Event.ctxRemoveFolders foldersToRemove :: h.snd)

/-- The deletion range of updateFolders: the positional slice of the
current folder list when a delete count is given, empty otherwise. -/
def foldersToDeleteOf (w : Workspace) (index : Nat) (deleteCount : Option Nat) : List URI :=
  match deleteCount with
  | some dc => ((w.folders.drop index).take dc).map (fun f => f.uri)
  | none => []

/-- updateFolders: the folder set reconciler, dispatching between the
no-op fast path, the add path, the remove path and the combined
add-and-delete cases. -/
def updateFolders (env : Env) (index : Nat) (deleteCount : Option Nat)
    (foldersToAdd : Option (List IWorkspaceFolderCreationData)) (donotNotifyError : Bool) :
    Except Err Unit × List Event :=
  let foldersToDelete := foldersToDeleteOf env.currentWorkspace index deleteCount
  let wantsToDelete := foldersToDelete ≠ ([] : List URI)
  let wantsToAdd := foldersToAdd.getD [] ≠ ([] : List IWorkspaceFolderCreationData)
  if ¬ wantsToAdd ∧ ¬ wantsToDelete then
    (Except.ok (), [])
  else if wantsToAdd ∧ ¬ wantsToDelete then
    doAddFolders env (foldersToAdd.getD []) (some index) donotNotifyError
  else if wantsToDelete ∧ ¬ wantsToAdd then
    removeFolders env foldersToDelete false
  else if includesSingleFolderWorkspace env foldersToDelete then
    createAndEnterWorkspace env (foldersToAdd.getD []) none
  else if getWorkbenchState env.currentWorkspace ≠ WorkbenchState.WORKSPACE then
    doAddFolders env (foldersToAdd.getD []) (some index) donotNotifyError
  else
    doUpdateFolders env (foldersToAdd.getD []) foldersToDelete (some index) donotNotifyError

/-- The platform-specific button ordering of the shutdown prompt. -/
def shutdownButtons (p : Platform) : List ConfirmResult :=
  match p with
  | Platform.windows => [ConfirmResult.SAVE, ConfirmResult.DONT_SAVE, ConfirmResult.CANCEL]
  | Platform.linux => [ConfirmResult.DONT_SAVE, ConfirmResult.CANCEL, ConfirmResult.SAVE]
  | Platform.mac => [ConfirmResult.SAVE, ConfirmResult.CANCEL, ConfirmResult.DONT_SAVE]

/-- saveUntitedBeforeShutdown: the shutdown save guard.  none means the
guard stays silent (no veto registered); some (veto, trace) records the
veto decision and the effects performed. -/
def saveUntitedBeforeShutdown (env : Env) (reason : ShutdownReason) :
    Option (Bool × List Event) :=
  if reason ≠ ShutdownReason.LOAD ∧ reason ≠ ShutdownReason.CLOSE then
    none
  else
    match getCurrentWorkspaceIdentifier env.currentWorkspace with
    | none => none
    | some workspaceIdentifier =>
      if isEqualOrParentKey env.compKey workspaceIdentifier.configPath env.untitledWorkspacesHome then
        some (
          if reason = ShutdownReason.CLOSE ∧ env.platform ≠ Platform.mac ∧ env.windowCount = 1 then
            (false, [])
          else
            match (shutdownButtons env.platform).getD env.dialogChoice ConfirmResult.CANCEL with
            | ConfirmResult.CANCEL => (true, [Event.showDialog])
            | ConfirmResult.DONT_SAVE =>
              (false, [Event.showDialog, Event.deleteUntitledWorkspace workspaceIdentifier])
            | ConfirmResult.SAVE =>
              match env.pickedPath with
              | none => (true, [Event.showDialog, Event.pickPath])
              | some newWorkspacePath =>
                match saveWorkspaceAs env workspaceIdentifier newWorkspacePath with
                | (Except.error _, strace) =>
                  (false, [Event.showDialog, Event.pickPath] ++ strace)
                | (Except.ok _, strace) =>
                  (false, [Event.showDialog, Event.pickPath] ++ strace ++
                    [Event.addRecentlyOpened (env.getWorkspaceIdentifierFor newWorkspacePath),
                      Event.deleteUntitledWorkspace workspaceIdentifier]))
      else none

/-- Whether an event is a settings write. -/
def isSettingsWrite : Event → Bool
  | Event.writeSettings _ _ => true
  | _ => false

/-- A baseline environment used to instantiate the theorems on concrete
inputs; individual scenarios override the relevant fields. -/
def baseEnv : Env where
  compKey := fun s => s
  untitledWorkspacesHome := "untitled:"
  extensionTestsLocationURI := none
  remoteAuthority := none
  platform := Platform.mac
  windowCount := 2
  windows := []
  currentWorkspace := { id := "w1", folders := [], configuration := none }
  dialogChoice := 0
  pickedPath := none
  getWorkspaceIdentifierFor := fun p => { id := "saved", configPath := p }
  createUntitledWorkspaceIdFor := fun _ =>
    { id := "untitled-id", configPath := "untitled:/1.code-workspace" }
  hostEnterWorkspace := fun _ => Except.ok none
  fileRead := fun _ => Except.ok "raw-contents"
  rewriteWorkspaceFileForNewLocation := fun raw _ _ => raw
  fileCreateResult := Except.ok ()
  migrateStorageResult := Except.ok ()
  jsonWriteResult := Except.ok ()
  backupIsFileBackupService := false
  configServiceInitResult := Except.ok ()
  configKeysWorkspace := []
  configProperties := fun _ => none
  inspectWorkspace := fun _ => none
  ctxUpdateFoldersResult := Except.ok ()
  ctxAddFoldersResult := Except.ok ()
  ctxRemoveFoldersResult := Except.ok ()

/-- Scenario for the invalid-target analysis: another window already has
a workspace open at the target location, and the current session is a
titled workspace. -/
def envC1 : Env :=
  { baseEnv with
    windows := [{ workspace := some { id := "other", configPath := "file:///ws/target.code-workspace" } }]
    currentWorkspace :=
      { id := "cur", folders := [], configuration := some "file:///ws/current.code-workspace" } }

/-- Scenario for the single-folder replacement: a FOLDER session with one
opened folder. -/
def envC2 : Env :=
  { baseEnv with
    currentWorkspace := { id := "folder-session", folders := [{ uri := "file:///f", name := "f" }], configuration := none } }

/-- Scenario for the failing host enter step. -/
def envC3 : Env :=
  { baseEnv with
    hostEnterWorkspace := fun _ => Except.error (Err.genericError "host refused") }

/-- Scenario for the shutdown guard: an untitled workspace is open. -/
def envC4 : Env :=
  { baseEnv with
    currentWorkspace :=
      { id := "untitled-id", folders := [], configuration := some "untitled:/2.code-workspace" }
    dialogChoice := 1 }

/-- Scenario for the settings migration: a FOLDER session whose workspace
configuration has a window-scoped key, a machine-scoped key and an
undeclared key all effective. -/
def envC5 : Env :=
  { baseEnv with
    currentWorkspace := { id := "folder-session", folders := [{ uri := "file:///f", name := "f" }], configuration := none }
    configKeysWorkspace := ["win.key", "mach.key", "undeclared.key"]
    configProperties := fun k =>
      if k = "win.key" then some { scope := some ConfigurationScope.WINDOW }
      else if k = "mach.key" then some { scope := some ConfigurationScope.MACHINE }
      else none
    inspectWorkspace := fun _ => some "value" }

/-- Scenario for the delegated-edit failures: a WORKSPACE session whose
context-service edits all fail. -/
def envC10 : Env :=
  { baseEnv with
    currentWorkspace := { id := "ws", folders := [], configuration := some "file:///w.code-workspace" }
    ctxUpdateFoldersResult := Except.error (Err.genericError "edit failed")
    ctxAddFoldersResult := Except.error (Err.genericError "edit failed")
    ctxRemoveFoldersResult := Except.error (Err.genericError "edit failed") }

/-- Every classified configuration-editing failure resolves: the
classifier consumes the error. -/
theorem handle_error_resolves (error : Err) :
    (handleWorkspaceConfigurationEditingError error).fst = Except.ok () := by
  cases error with
  | jsonEditing code message => cases code <;> rfl
  | nullRejection => rfl
  | testModeError => rfl
  | genericError message => rfl

/-- Claim C6: isValidTargetWorkspacePath returns false exactly when some
entry of the live open-windows list has a workspace whose configuration
location equals the target by the normalized comparison key, and returns
true otherwise. -/
theorem isValidTargetWorkspacePath_false_iff (env : Env) (path : URI) :
    ((isValidTargetWorkspacePath env path).fst = false ↔
      ∃ w ∈ env.windows, ∃ cfg, w.workspace = some cfg ∧
        env.compKey cfg.configPath = env.compKey path) ∧
    ((isValidTargetWorkspacePath env path).fst = true ↔
      ¬ ∃ w ∈ env.windows, ∃ cfg, w.workspace = some cfg ∧
        env.compKey cfg.configPath = env.compKey path) := by
  have key : env.windows.any (windowMatches env.compKey path) = true ↔
      ∃ w ∈ env.windows, ∃ cfg, w.workspace = some cfg ∧
        env.compKey cfg.configPath = env.compKey path := by
    rw [List.any_eq_true]
    constructor
    · rintro ⟨w, hw, hm⟩
      cases hws : w.workspace with
      | none => simp [windowMatches, hws] at hm
      | some cfg =>
        refine ⟨w, hw, cfg, hws, ?_⟩
        simpa [windowMatches, hws, isEqualKey] using hm
    · rintro ⟨w, hw, cfg, hws, hk⟩
      exact ⟨w, hw, by simp [windowMatches, hws, isEqualKey, hk]⟩
  have main : (isValidTargetWorkspacePath env path).fst = false ↔
      ∃ w ∈ env.windows, ∃ cfg, w.workspace = some cfg ∧
        env.compKey cfg.configPath = env.compKey path := by
    rw [← key]
    by_cases h : env.windows.any (windowMatches env.compKey path) = true
    · simp [isValidTargetWorkspacePath, h]
    · simp [isValidTargetWorkspacePath, h]
  refine ⟨main, ?_⟩
  rw [← main]
  cases h : (isValidTargetWorkspacePath env path).fst <;> simp [h]

/-- Claim C7: folder de-duplication in the add path preserves the order
of first occurrences of the normalized comparison key: adding the list
A, B, A to an empty current folder list yields the candidate list A, B. -/
theorem addCandidateFolders_dedup_first_occurrence (compKey : URI → URI)
    (index : Option Nat) (A B : IWorkspaceFolderCreationData)
    (hAB : compKey A.uri ≠ compKey B.uri) :
    addCandidateFolders compKey [] index [A, B, A] = [A, B] := by
  simp [addCandidateFolders, distinct, distinctAux, hAB, Ne.symm hAB]

theorem addCandidateFolders_dedup_first_occurrence_witness :
    (fun (s : URI) => s) "file:///a" ≠ (fun (s : URI) => s) "file:///b" ∧
    addCandidateFolders (fun s => s) [] none
      [{ uri := "file:///a" }, { uri := "file:///b" }, { uri := "file:///a" }] =
      [{ uri := "file:///a" }, { uri := "file:///b" }] :=
  ⟨by decide,
    addCandidateFolders_dedup_first_occurrence (fun s => s) none
      { uri := "file:///a" } { uri := "file:///b" } (by decide)⟩

/-- Claim C8: when the computed deletion range is empty and foldersToAdd
is absent or empty, updateFolders succeeds with no observable effect. -/
theorem updateFolders_noop (env : Env) (index : Nat) (deleteCount : Option Nat)
    (foldersToAdd : Option (List IWorkspaceFolderCreationData)) (donotNotifyError : Bool)
    (hdel : foldersToDeleteOf env.currentWorkspace index deleteCount = [])
    (hadd : foldersToAdd = none ∨ foldersToAdd = some []) :
    updateFolders env index deleteCount foldersToAdd donotNotifyError = (Except.ok (), []) := by
  rcases hadd with h | h <;> subst h <;> simp [updateFolders, hdel]

theorem updateFolders_noop_witness :
    foldersToDeleteOf baseEnv.currentWorkspace 0 (some 0) = [] ∧
    updateFolders baseEnv 0 (some 0) none false = (Except.ok (), []) :=
  ⟨rfl, updateFolders_noop baseEnv 0 (some 0) none false rfl (Or.inl rfl)⟩

/-- Claim C9: saveWorkspaceAs with a target equal to the current
configuration location succeeds and performs no read and no write. -/
theorem saveWorkspaceAs_same_location_noop (env : Env) (workspace : WorkspaceIdentifier)
    (target : URI) (h : env.compKey workspace.configPath = env.compKey target) :
    saveWorkspaceAs env workspace target = (Except.ok (), []) := by
  simp [saveWorkspaceAs, isEqualKey, h]

theorem saveWorkspaceAs_same_location_noop_witness :
    baseEnv.compKey "file:///x.code-workspace" = baseEnv.compKey "file:///x.code-workspace" ∧
    saveWorkspaceAs baseEnv { id := "w", configPath := "file:///x.code-workspace" }
      "file:///x.code-workspace" = (Except.ok (), []) :=
  ⟨rfl, saveWorkspaceAs_same_location_noop baseEnv
    { id := "w", configPath := "file:///x.code-workspace" } "file:///x.code-workspace" rfl⟩

/-- Claim C3: when the host enter-identifier step of enterWorkspace
fails, the extension host is restarted exactly once, the original error
is rethrown unchanged, and neither storage migration nor settings
migration executes. -/
theorem enterWorkspace_host_error (env : Env) (path : URI) (e : Err)
    (ht : env.extensionTestsLocationURI = none)
    (he : env.hostEnterWorkspace path = Except.error e) :
    enterWorkspace env path =
      (Except.error e,
        [Event.stopExtensionHost, Event.enterWorkspaceHost path] ++
          startExtensionHostEvents env) ∧
    (enterWorkspace env path).snd.count Event.startExtensionHost = 1 ∧
    Event.migrateStorage ∉ (enterWorkspace env path).snd ∧
    (enterWorkspace env path).snd.countP isSettingsWrite = 0 := by
  have hmain : enterWorkspace env path =
      (Except.error e,
        [Event.stopExtensionHost, Event.enterWorkspaceHost path] ++
          startExtensionHostEvents env) := by
    simp [enterWorkspace, ht, he]
  refine ⟨hmain, ?_, ?_, ?_⟩ <;> rw [hmain] <;>
    cases hra : env.remoteAuthority <;>
      simp [startExtensionHostEvents, hra, isSettingsWrite, List.count_cons, List.count_nil,
        List.countP_cons, List.countP_nil, beq_iff_eq]

theorem enterWorkspace_host_error_witness :
    envC3.extensionTestsLocationURI = none ∧
    envC3.hostEnterWorkspace "file:///t.code-workspace" =
      Except.error (Err.genericError "host refused") ∧
    enterWorkspace envC3 "file:///t.code-workspace" =
      (Except.error (Err.genericError "host refused"),
        [Event.stopExtensionHost, Event.enterWorkspaceHost "file:///t.code-workspace"] ++
          startExtensionHostEvents envC3) :=
  ⟨rfl, rfl, (enterWorkspace_host_error envC3 "file:///t.code-workspace"
    (Err.genericError "host refused") rfl rfl).1⟩

/-- Claim C5: when migration runs from a previous FOLDER state, the
settings written into the new settings block are exactly the
workspace-effective keys whose declared scope is the window scope; keys
with another scope or with no declared property are never copied. -/
theorem migrate_folder_copies_window_scoped (env : Env) (toWorkspace : WorkspaceIdentifier)
    (hst : getWorkbenchState env.currentWorkspace = WorkbenchState.FOLDER)
    (hms : env.migrateStorageResult = Except.ok ()) :
    migrate env toWorkspace =
      (env.jsonWriteResult,
        [Event.migrateStorage,
          Event.writeSettings toWorkspace.configPath
            (copiedWorkspaceSettings env (some windowScopeFilter))]) ∧
    ∀ k v, (k, v) ∈ copiedWorkspaceSettings env (some windowScopeFilter) ↔
      (k ∈ env.configKeysWorkspace ∧ ∃ p, env.configProperties k = some p ∧
        p.scope = some ConfigurationScope.WINDOW ∧ v = env.inspectWorkspace k) := by
  constructor
  · simp [migrate, hms, hst, migrateWorkspaceSettings, doCopyWorkspaceSettings]
  · intro k v
    rw [copiedWorkspaceSettings, List.mem_filterMap]
    constructor
    · rintro ⟨a, ha, hf⟩
      cases hp : env.configProperties a with
      | none => simp [copyEntry, hp] at hf
      | some p =>
        by_cases hw : windowScopeFilter p = true
        · simp [copyEntry, hp, hw] at hf
          obtain ⟨rfl, rfl⟩ := hf
          refine ⟨ha, p, hp, ?_, rfl⟩
          simpa [windowScopeFilter] using hw
        · simp [copyEntry, hp, hw] at hf
    · rintro ⟨hk, p, hp, hscope, rfl⟩
      refine ⟨k, hk, ?_⟩
      simp [copyEntry, hp, windowScopeFilter, hscope]

theorem migrate_folder_copies_window_scoped_witness :
    getWorkbenchState envC5.currentWorkspace = WorkbenchState.FOLDER ∧
    ("win.key", some "value") ∈ copiedWorkspaceSettings envC5 (some windowScopeFilter) :=
  ⟨rfl,
    ((migrate_folder_copies_window_scoped envC5
        { id := "nw", configPath := "file:///nw.code-workspace" } rfl rfl).2
      "win.key" (some "value")).mpr
      ⟨by decide, { scope := some ConfigurationScope.WINDOW }, rfl, rfl, rfl⟩⟩

/-- Claim C10: a failing delegated workspace edit is consumed by the
error classifier, which always resolves after notifying, so
doUpdateFolders, addFolders and removeFolders resolve successfully when
donotNotifyError is false and reject with the original error exactly
when donotNotifyError is true. -/
theorem delegated_edit_error_policy (env : Env) (e : Err) :
    (∀ err, (handleWorkspaceConfigurationEditingError err).fst = Except.ok ()) ∧
    (env.ctxUpdateFoldersResult = Except.error e →
      ∀ toAdd toDelete idx,
        (doUpdateFolders env toAdd toDelete idx false).fst = Except.ok () ∧
        (doUpdateFolders env toAdd toDelete idx true).fst = Except.error e) ∧
    (getWorkbenchState env.currentWorkspace = WorkbenchState.WORKSPACE →
      env.ctxAddFoldersResult = Except.error e →
      ∀ toAdd,
        (addFolders env toAdd false).fst = Except.ok () ∧
        (addFolders env toAdd true).fst = Except.error e) ∧
    (env.ctxRemoveFoldersResult = Except.error e →
      ∀ toRemove, includesSingleFolderWorkspace env toRemove = false →
        (removeFolders env toRemove false).fst = Except.ok () ∧
        (removeFolders env toRemove true).fst = Except.error e) := by
  refine ⟨handle_error_resolves, ?_, ?_, ?_⟩
  · intro h toAdd toDelete idx
    exact ⟨by simp [doUpdateFolders, h, handle_error_resolves e],
      by simp [doUpdateFolders, h]⟩
  · intro hst h toAdd
    exact ⟨by simp [addFolders, doAddFolders, hst, h, handle_error_resolves e],
      by simp [addFolders, doAddFolders, hst, h]⟩
  · intro h toRemove hincl
    exact ⟨by simp [removeFolders, hincl, h, handle_error_resolves e],
      by simp [removeFolders, hincl, h]⟩

theorem delegated_edit_error_policy_witness :
    envC10.ctxUpdateFoldersResult = Except.error (Err.genericError "edit failed") ∧
    (doUpdateFolders envC10 [] [] none false).fst = Except.ok () ∧
    (doUpdateFolders envC10 [] [] none true).fst =
      Except.error (Err.genericError "edit failed") :=
  ⟨rfl,
    ((delegated_edit_error_policy envC10 (Err.genericError "edit failed")).2.1 rfl [] [] none).1,
    ((delegated_edit_error_policy envC10 (Err.genericError "edit failed")).2.1 rfl [] [] none).2⟩

/-- Claim C2: for a FOLDER session with sole folder fw, updateFolders
with a deletion range covering fw and additions A, B dispatches to
creating and entering a brand-new workspace whose stored folder list is
exactly the de-duplicated A, B in argument order and never contains fw. -/
theorem updateFolders_replace_single_folder (env : Env) (fw : WorkspaceFolder)
    (A B : IWorkspaceFolderCreationData) (dc : Nat) (dn : Bool)
    (hcfg : env.currentWorkspace.configuration = none)
    (hf : env.currentWorkspace.folders = [fw])
    (hdc : 0 < dc)
    (hAB : env.compKey A.uri ≠ env.compKey B.uri)
    (hFA : env.compKey fw.uri ≠ env.compKey A.uri)
    (hFB : env.compKey fw.uri ≠ env.compKey B.uri) :
    updateFolders env 0 (some dc) (some [A, B]) dn =
      createAndEnterWorkspace env [A, B] none ∧
    createUntitledWorkspaceFolders env.compKey [A, B] = [A, B] ∧
    (createAndEnterWorkspace env [A, B] none).snd.head? =
      some (Event.createUntitledWorkspace [A, B]) ∧
    ∀ g ∈ createUntitledWorkspaceFolders env.compKey [A, B],
      env.compKey g.uri ≠ env.compKey fw.uri := by
  have hstate : getWorkbenchState env.currentWorkspace = WorkbenchState.FOLDER := by
    simp [getWorkbenchState, hcfg, hf]
  have hdedup : createUntitledWorkspaceFolders env.compKey [A, B] = [A, B] := by
    simp [createUntitledWorkspaceFolders, distinct, distinctAux, Ne.symm hAB]
  have hdel : foldersToDeleteOf env.currentWorkspace 0 (some dc) = [fw.uri] := by
    cases dc with
    | zero => exact absurd hdc (by omega)
    | succ n => simp [foldersToDeleteOf, hf]
  have hincl : includesSingleFolderWorkspace env [fw.uri] = true := by
    simp [includesSingleFolderWorkspace, hstate, hf, isEqualKey]
  refine ⟨?_, hdedup, ?_, ?_⟩
  · simp [updateFolders, hdel, hincl]
  · simp [createAndEnterWorkspace, hdedup]
  · intro g hg
    rw [hdedup] at hg
    simp only [List.mem_cons, List.not_mem_nil, or_false] at hg
    rcases hg with rfl | rfl
    · exact Ne.symm hFA
    · exact Ne.symm hFB

theorem updateFolders_replace_single_folder_witness :
    envC2.currentWorkspace.folders = [{ uri := "file:///f", name := "f" }] ∧
    updateFolders envC2 0 (some 1)
        (some [{ uri := "file:///a" }, { uri := "file:///b" }]) false =
      createAndEnterWorkspace envC2 [{ uri := "file:///a" }, { uri := "file:///b" }] none ∧
    createUntitledWorkspaceFolders envC2.compKey
        [{ uri := "file:///a" }, { uri := "file:///b" }] =
      [{ uri := "file:///a" }, { uri := "file:///b" }] :=
  ⟨rfl,
    (updateFolders_replace_single_folder envC2 { uri := "file:///f", name := "f" }
      { uri := "file:///a" } { uri := "file:///b" } 1 false rfl rfl (by decide)
      (by decide) (by decide) (by decide)).1,
    (updateFolders_replace_single_folder envC2 { uri := "file:///f", name := "f" }
      { uri := "file:///a" } { uri := "file:///b" } 1 false rfl rfl (by decide)
      (by decide) (by decide) (by decide)).2.1⟩

/-- Claim C4: in the shutdown guard prompt flow over an untitled
workspace, Cancel vetoes; Do-not-Save returns false after deleting the
untitled file; Save with no picked location vetoes; Save with a picked
location returns false after the save-as, the recently-opened record and
the deletion of the old untitled file; and a failing save-as still
returns false. -/
theorem saveUntitedBeforeShutdown_prompt_flow (env : Env) (reason : ShutdownReason)
    (wid : WorkspaceIdentifier)
    (hr : reason = ShutdownReason.LOAD ∨ reason = ShutdownReason.CLOSE)
    (hw : getCurrentWorkspaceIdentifier env.currentWorkspace = some wid)
    (hu : isEqualOrParentKey env.compKey wid.configPath env.untitledWorkspacesHome = true)
    (hs : ¬ (reason = ShutdownReason.CLOSE ∧ env.platform ≠ Platform.mac ∧ env.windowCount = 1)) :
    ((shutdownButtons env.platform).getD env.dialogChoice ConfirmResult.CANCEL =
        ConfirmResult.CANCEL →
      saveUntitedBeforeShutdown env reason = some (true, [Event.showDialog])) ∧
    ((shutdownButtons env.platform).getD env.dialogChoice ConfirmResult.CANCEL =
        ConfirmResult.DONT_SAVE →
      saveUntitedBeforeShutdown env reason =
        some (false, [Event.showDialog, Event.deleteUntitledWorkspace wid])) ∧
    ((shutdownButtons env.platform).getD env.dialogChoice ConfirmResult.CANCEL =
        ConfirmResult.SAVE →
      env.pickedPath = none →
      saveUntitedBeforeShutdown env reason =
        some (true, [Event.showDialog, Event.pickPath])) ∧
    (∀ p, (shutdownButtons env.platform).getD env.dialogChoice ConfirmResult.CANCEL =
        ConfirmResult.SAVE →
      env.pickedPath = some p →
      (∀ e strace, saveWorkspaceAs env wid p = (Except.error e, strace) →
        saveUntitedBeforeShutdown env reason =
          some (false, [Event.showDialog, Event.pickPath] ++ strace)) ∧
      (∀ strace, saveWorkspaceAs env wid p = (Except.ok (), strace) →
        saveUntitedBeforeShutdown env reason =
          some (false, [Event.showDialog, Event.pickPath] ++ strace ++
            [Event.addRecentlyOpened (env.getWorkspaceIdentifierFor p),
              Event.deleteUntitledWorkspace wid]))) := by
  have hguard : ¬ (reason ≠ ShutdownReason.LOAD ∧ reason ≠ ShutdownReason.CLOSE) := by
    rcases hr with h | h <;> simp [h]
  refine ⟨?_, ?_, ?_, ?_⟩
  · intro hc
    simp only [List.getD_eq_getElem?_getD] at hc
    simp [saveUntitedBeforeShutdown, hguard, hw, hu, hs, hc]
  · intro hc
    simp only [List.getD_eq_getElem?_getD] at hc
    simp [saveUntitedBeforeShutdown, hguard, hw, hu, hs, hc]
  · intro hc hp
    simp only [List.getD_eq_getElem?_getD] at hc
    simp [saveUntitedBeforeShutdown, hguard, hw, hu, hs, hc, hp]
  · intro p hc hp
    simp only [List.getD_eq_getElem?_getD] at hc
    constructor
    · intro e strace hsv
      simp [saveUntitedBeforeShutdown, hguard, hw, hu, hs, hc, hp, hsv]
    · intro strace hsv
      simp [saveUntitedBeforeShutdown, hguard, hw, hu, hs, hc, hp, hsv]

theorem saveUntitedBeforeShutdown_prompt_flow_witness :
    (shutdownButtons envC4.platform).getD envC4.dialogChoice ConfirmResult.CANCEL =
      ConfirmResult.CANCEL ∧
    saveUntitedBeforeShutdown envC4 ShutdownReason.LOAD = some (true, [Event.showDialog]) :=
  ⟨rfl,
    (saveUntitedBeforeShutdown_prompt_flow envC4 ShutdownReason.LOAD
      { id := "untitled-id", configPath := "untitled:/2.code-workspace" }
      (Or.inl rfl) rfl rfl (by decide)).1 rfl⟩

/-- Claim C1 is refuted by the source: on lines 245 and 259 the validity
check is an async method whose returned promise is tested without await;
the promise object is always truthy, so the rejection branch is
unreachable, and with a target already open in another window both
saveAndEnterWorkspace and createAndEnterWorkspace still perform the
save-as and enter the workspace instead of rejecting. -/
theorem invalid_target_is_not_rejected :
    (isValidTargetWorkspacePath envC1 "file:///ws/target.code-workspace").fst = false ∧
    saveAndEnterWorkspace envC1 "file:///ws/target.code-workspace" =
      (Except.ok (),
        [Event.showMessageBox,
          Event.readContent "file:///ws/current.code-workspace",
          Event.createFile "file:///ws/target.code-workspace" "raw-contents",
          Event.stopExtensionHost,
          Event.enterWorkspaceHost "file:///ws/target.code-workspace"]) ∧
    createAndEnterWorkspace envC1 [{ uri := "file:///fa" }]
        (some "file:///ws/target.code-workspace") =
      (Except.ok (),
        [Event.showMessageBox,
          Event.createUntitledWorkspace [{ uri := "file:///fa" }],
          Event.readContent "untitled:/1.code-workspace",
          Event.createFile "file:///ws/target.code-workspace" "raw-contents",
          Event.stopExtensionHost,
          Event.enterWorkspaceHost "file:///ws/target.code-workspace"]) :=
  ⟨rfl, rfl, rfl⟩

end WorkspaceEditing
